import Mathlib

/-!
Shallow embedding of `cosmwasm/packages/sgx-vm/src/compatability.rs`: the static
compatibility gate that a Wasm contract module must pass before instantiation.
The data model mirrors the parts of the `parity_wasm` module representation the
validator reads (memory section, export section, import section); the external
binary deserializer is a parameter of `check_wasm`.  Build-configuration
gated import-list entries (`cfg(feature = ...)` in the source) are modelled by a
`BuildConfig` record resolved before validation, as the spec describes.
-/

namespace Compatability

/-- Kind of an imported capability, mirroring `parity_wasm::elements::External`.
The payloads of the table, memory and global variants are never read by the
validator, so they are omitted here; the function variant keeps its type index. -/
inductive External where
  | function : Nat → External
  | table : External
  | memory : External
  | global : External
deriving DecidableEq, Repr

/-- An entry of the import section: the providing module name, the field name,
and the kind of the imported capability (`parity_wasm::elements::ImportEntry`). -/
structure ImportEntry where
  module : String
  field : String
  external : External
deriving DecidableEq, Repr

/-- An entry of the export section.  The validator only ever reads the exported
name (`entry.field()` in the source), so only that is modelled. -/
structure ExportEntry where
  field : String
deriving DecidableEq, Repr

/-- Size bounds of a linear memory (`parity_wasm::elements::ResizableLimits`):
initial number of pages and an optional declared maximum. -/
structure ResizableLimits where
  initial : Nat
  maximum : Option Nat
deriving DecidableEq, Repr

/-- One memory declaration, carrying its limits. -/
structure MemoryType where
  limits : ResizableLimits
deriving DecidableEq, Repr

/-- The memory section: a list of memory declarations. -/
structure MemorySection where
  entries : List MemoryType
deriving DecidableEq, Repr

/-- The export section: a list of export entries. -/
structure ExportSection where
  entries : List ExportEntry
deriving DecidableEq, Repr

/-- The import section: a list of import entries. -/
structure ImportSection where
  entries : List ImportEntry
deriving DecidableEq, Repr

/-- The structured view of a deserialized Wasm module, restricted to the three
sections the compatibility gate inspects.  Each section is optional, exactly as
in `parity_wasm::elements::Module`. -/
structure Module where
  memory_section : Option MemorySection
  export_section : Option ExportSection
  import_section : Option ImportSection
deriving DecidableEq, Repr

/-- The one error constructor the validator uses: `VmError::static_validation_err`
with a human-readable message. -/
inductive VmError where
  | staticValidationErr : String → VmError
deriving DecidableEq, Repr

/-- Rust `VmResult<()>` = `Result<(), VmError>`. -/
abbrev VmResult := Except VmError Unit

/-- Build-time feature flags that decide which conditionally compiled entries
appear in the supported-import lists (`cfg(feature = "iterator")` and
`cfg(feature = "debug-print")` in the source). -/
structure BuildConfig where
  iterator : Bool
  debug_print : Bool
deriving DecidableEq, Repr

/-- All v0.10 imports the VM provides, in declaration order; the iterator and
debug-print entries are present only under the corresponding build features. -/
def SUPPORTED_IMPORTS_V010 (cfg : BuildConfig) : List String :=
  ["env.db_read",
   "env.db_write",
   "env.db_remove",
   "env.canonicalize_address",
   "env.humanize_address",
   "env.query_chain",
   "env.secp256k1_verify",
   "env.secp256k1_recover_pubkey",
   "env.secp256k1_sign",
   "env.ed25519_verify",
   "env.ed25519_batch_verify",
   "env.ed25519_sign"]
  ++ (if cfg.iterator then ["env.db_scan", "env.db_next"] else [])
  ++ (if cfg.debug_print then ["env.debug_print"] else [])

/-- All v1 imports the VM provides, in declaration order; the iterator entries
are present only under the iterator build feature. -/
def SUPPORTED_IMPORTS_V1 (cfg : BuildConfig) : List String :=
  ["env.db_read",
   "env.db_write",
   "env.db_remove",
   "env.addr_validate",
   "env.addr_canonicalize",
   "env.addr_humanize",
   "env.secp256k1_verify",
   "env.secp256k1_recover_pubkey",
   "env.secp256k1_sign",
   "env.ed25519_verify",
   "env.ed25519_batch_verify",
   "env.ed25519_sign",
   "env.dcap_quote_verify",
   "env.debug",
   "env.query_chain"]
  ++ (if cfg.iterator then ["env.db_scan", "env.db_next"] else [])
  ++ ["env.gas_evaporate", "env.check_gas"]

/-- All entry points expected to be present when calling a v0.10 contract. -/
def REQUIRED_EXPORTS_V010 : List String :=
  ["cosmwasm_vm_version_3",
   "query",
   "init",
   "handle",
   "allocate",
   "deallocate"]

/-- All entry points expected to be present when calling a v1 contract. -/
def REQUIRED_EXPORTS_V1 : List String :=
  ["interface_version_8",
   "allocate",
   "deallocate",
   "instantiate"]

/-- Entry points required of IBC-enabled contracts (used by a separate
validation path sharing `check_wasm_exports`). -/
def REQUIRED_IBC_EXPORTS : List String :=
  ["ibc_channel_open",
   "ibc_channel_connect",
   "ibc_channel_close",
   "ibc_packet_receive",
   "ibc_packet_ack",
   "ibc_packet_timeout"]

/-- Host ceiling on a memory declaration, in pages (`MEMORY_LIMIT` in the source). -/
def MEMORY_LIMIT : Nat := 512

/-- Rust Debug rendering of one string: surrounding double quotes.  The escaping
of special characters inside the string is not modelled; every string this
development renders is escape-free. -/
def quoteDbg (s : String) : String := "\"" ++ s ++ "\""

/-- Joins a list of strings with a separator (the comma-space of Rust Debug lists). -/
def joinSep (sep : String) : List String → String
  | [] => ""
  | [s] => s
  | s :: rest => s ++ sep ++ joinSep sep rest

/-- Rust Debug rendering of a slice of strings: `["a", "b"]`. -/
def renderStrSlice (l : List String) : String :=
  "[" ++ joinSep ", " (l.map quoteDbg) ++ "]"

/-- Rust Debug rendering of an ordered string set: `\x7b"a", "b"\x7d`. -/
def renderStrSet (l : List String) : String :=
  "\x7b" ++ joinSep ", " (l.map quoteDbg) ++ "\x7d"

/-- Strict lexicographic comparison of two strings by code point, the order
Rust `BTreeSet<String>` sorts by (byte order and code-point order agree on
UTF-8). -/
def strLtB (a b : String) : Bool := decide (a.data < b.data)

/-- Ordered-set insertion keeping the list strictly sorted (a `BTreeSet` insert):
an element equal to a present one is dropped. -/
def btreeInsert (a : String) : List String → List String
  | [] => [a]
  | b :: bs =>
    if strLtB a b then a :: b :: bs
    else if strLtB b a then b :: btreeInsert a bs
    else b :: bs

/-- `BTreeSet::from_iter`: fold the elements into a strictly sorted duplicate-free
list. -/
def btreeSetOfList (l : List String) : List String :=
  l.foldl (fun acc a => btreeInsert a acc) []

/-- The names exported by a module: an absent export section yields the empty
list (`map_or(vec![], ...)` in the source). -/
def available_wasm_exports (m : Module) : List String :=
  match m.export_section with
  | none => []
  | some export_section => export_section.entries.map (fun entry => entry.field)

/-- Rejection message of `check_wasm_exports` for the first missing required
export: it names the export and enumerates the full required list. -/
def missing_export_msg (required_export : String) (required_exports : List String) : String :=
  "Wasm contract doesn\x27t have required export: \"" ++ required_export ++
    "\". Exports required by VM: " ++ renderStrSlice required_exports ++ "."

/-- The scan of `check_wasm_exports` over the required names, in order, stopping
at the first name absent from the available exports. -/
def check_wasm_exports_loop (available_exports required_exports : List String) :
    List String → VmResult
  | [] => .ok ()
  | required_export :: rest =>
    if available_exports.any (fun x => x == required_export) then
      check_wasm_exports_loop available_exports required_exports rest
    else
      .error (.staticValidationErr (missing_export_msg required_export required_exports))

/-- `check_wasm_exports`: every required name must occur among the module
exports; the first missing one is reported together with the full required list. -/
def check_wasm_exports (m : Module) (required_exports : List String) : VmResult :=
  check_wasm_exports_loop (available_wasm_exports m) required_exports required_exports

/-- Fully qualified name of an import: `module.name`. -/
def import_full_name (entry : ImportEntry) : String :=
  entry.module ++ "." ++ entry.field

/-- Rejection message for an import outside the supported list; it names
the import and lists the full supported set. -/
def unsupported_import_msg (full_name : String) (supported_imports : List String) : String :=
  "Wasm contract requires unsupported import: \"" ++ full_name ++
    "\". Imports supported by VM: " ++ renderStrSlice supported_imports ++ "."

/-- Rejection message for a supported-name import of non-function kind. -/
def non_function_import_msg (full_name : String) : String :=
  "Wasm contract requires non-function import: \"" ++ full_name ++
    "\". Right now, all supported imports are functions."

/-- The scan of `check_wasm_imports` over the declared imports, in order:
each import must have a supported fully-qualified name (checked first) and be of
function kind (checked second); the first failure stops the scan. -/
def check_wasm_imports_loop (supported_imports : List String) :
    List ImportEntry → VmResult
  | [] => .ok ()
  | required_import :: rest =>
    let full_name := import_full_name required_import
    if supported_imports.contains full_name then
      match required_import.external with
      | .function _ => check_wasm_imports_loop supported_imports rest
      | _ => .error (.staticValidationErr (non_function_import_msg full_name))
    else
      .error (.staticValidationErr (unsupported_import_msg full_name supported_imports))

/-- The imports a module declares: an absent import section yields the empty
list (`map_or(vec![], ...)` in the source). -/
def required_wasm_imports (m : Module) : List ImportEntry :=
  match m.import_section with
  | none => []
  | some import_section => import_section.entries

/-- `check_wasm_imports`: checks every declared import is supported and of
function kind. -/
def check_wasm_imports (m : Module) (supported_imports : List String) : VmResult :=
  check_wasm_imports_loop supported_imports (required_wasm_imports m)

/-- Rejection message of `check_wasm_memories` when no memory section exists. -/
def missing_memory_section_msg : String :=
  "Wasm contract doesn\x27t have a memory section"

/-- Rejection message of `check_wasm_memories` when the entry count is not one. -/
def memory_count_msg : String :=
  "Wasm contract must contain exactly one memory"

/-- Rejection message of `check_wasm_memories` when the initial size exceeds the
ceiling; the ceiling value is interpolated as in the source `format!`. -/
def memory_min_msg : String :=
  "Wasm contract memory\x27s minimum must not exceed " ++ toString MEMORY_LIMIT ++ " pages."

/-- Rejection message of `check_wasm_memories` when a maximum is declared. -/
def memory_max_msg : String :=
  "Wasm contract memory\x27s maximum must be unset. The host will set it for you."

/-- `check_wasm_memories`: the module must have a memory section with exactly
one entry, whose initial size is at most `MEMORY_LIMIT` pages and which declares
no maximum.  The checks apply in that order and stop at the first failure. -/
def check_wasm_memories (m : Module) : VmResult :=
  match m.memory_section with
  | none =>
    .error (.staticValidationErr missing_memory_section_msg)
  | some memory_section =>
    match memory_section.entries with
    | [memory] =>
      let limits := memory.limits
      if limits.initial > MEMORY_LIMIT then
        .error (.staticValidationErr memory_min_msg)
      else if limits.maximum ≠ none then
        .error (.staticValidationErr memory_max_msg)
      else .ok ()
    | _ =>
      .error (.staticValidationErr memory_count_msg)

/-- The export-name convention marking a feature requirement. -/
def REQUIRES_MARKER : String := "requires_"

/-- Removes a leading marker from a character list, or fails when the marker is
not a leading segment. -/
def stripLexMarker : List Char → List Char → Option (List Char)
  | [], rest => some rest
  | _ :: _, [] => none
  | m :: ms, c :: cs => if m = c then stripLexMarker ms cs else none

/-- Modelled from the spec: `required_features_from_module` lives in
`crate::features`, which is not part of the sources under verification.  Per the
spec it scans every export name; each name beginning with the convention marker
contributes its remaining suffix, case-sensitively and purely lexically, as a
required feature identifier, and duplicates collapse (the source returns a
`HashSet<String>`, modelled as a duplicate-free list).  The suffix must be
nonempty: the repository test `check_wasm_features_ok` exports the bare marker
`requires_` and still passes with no empty feature enabled. -/
def required_features_from_module (m : Module) : List String :=
  ((available_wasm_exports m).filterMap (fun name =>
    match stripLexMarker REQUIRES_MARKER.data name.data with
    | some (c :: cs) => some (String.mk (c :: cs))
    | _ => none)).eraseDups

/-- Rejection message of `check_wasm_features`, listing the sorted set of
required-but-unsupported features. -/
def unsupported_features_msg (unsupported : List String) : String :=
  "Wasm contract requires unsupported features: " ++ renderStrSet unsupported

/-- `check_wasm_features`: the module-required features must form a subset of
the supported features; otherwise the difference, sorted via `BTreeSet`, is
reported. -/
def check_wasm_features (m : Module) (supported_features : List String) : VmResult :=
  let required_features := required_features_from_module m
  if required_features.all (fun f => supported_features.contains f) then
    .ok ()
  else
    .error (.staticValidationErr (unsupported_features_msg
      (btreeSetOfList (required_features.filter
        (fun f => !(supported_features.contains f))))))

/-- Rust `Result::is_ok`. -/
def vm_result_is_ok : VmResult → Bool
  | .ok _ => true
  | .error _ => false

/-- Modelled from the spec: the Debug rendering of one per-generation validation
result inside the aggregated diagnostic.  `VmError` and its derived Debug
instance live in `crate::errors`, outside the sources under verification; per
the spec the aggregate must contain every underlying per-generation error, so
the rendering embeds each error message verbatim. -/
def render_vm_result : VmResult → String
  | .ok _ => "Ok(())"
  | .error (.staticValidationErr msg) =>
    "Err(StaticValidationErr \x7b msg: \"" ++ msg ++ "\" \x7d)"

/-- Debug rendering of the vector of the four per-generation results. -/
def render_vm_results (errors : List VmResult) : String :=
  "[" ++ joinSep ", " (errors.map render_vm_result) ++ "]"

/-- Rejection message of `check_wasm` when no generation profile passes;
it embeds the Debug rendering of all four per-generation results (the literal
wording, including the `supports v1` typo, is the source string). -/
def no_compatible_generation_msg (errors : List VmResult) : String :=
  "Contract is not CosmWasm v0.10 or v1. To support v0.10 please fix the former two errors, to supports v1 please fix the latter two errors: $" ++
    render_vm_results errors

/-- Rejection message of `check_wasm` when the bytes fail to deserialize. -/
def deserialization_error_msg (err : String) : String :=
  "Wasm bytecode could not be deserialized. Deserialization error: \"" ++ err ++ "\""

/-- `check_wasm`: deserialize (the external `parity_wasm::deserialize_buffer` is
a parameter), then check memories, then features, then try the v0.10 and v1
generation profiles; accept when at least one profile passes both its export
and its import check, and otherwise reject with the aggregate of the four
per-generation results. -/
def check_wasm (cfg : BuildConfig) (deserialize_buffer : List Nat → Except String Module)
    (wasm_code : List Nat) (supported_features : List String) : VmResult :=
  match deserialize_buffer wasm_code with
  | .error err => .error (.staticValidationErr (deserialization_error_msg err))
  | .ok module =>
    match check_wasm_memories module with
    | .error e => .error e
    | .ok _ =>
      match check_wasm_features module supported_features with
      | .error e => .error e
      | .ok _ =>
        let check_v010_exports_result := check_wasm_exports module REQUIRED_EXPORTS_V010
        let check_v010_imports_result := check_wasm_imports module (SUPPORTED_IMPORTS_V010 cfg)
        let is_v010 := vm_result_is_ok check_v010_exports_result &&
          vm_result_is_ok check_v010_imports_result
        let check_v1_exports_result := check_wasm_exports module REQUIRED_EXPORTS_V1
        let check_v1_imports_result := check_wasm_imports module (SUPPORTED_IMPORTS_V1 cfg)
        let is_v1 := vm_result_is_ok check_v1_exports_result &&
          vm_result_is_ok check_v1_imports_result
        if !is_v010 && !is_v1 then
          .error (.staticValidationErr (no_compatible_generation_msg
            [check_v010_exports_result, check_v010_imports_result,
             check_v1_exports_result, check_v1_imports_result]))
        else
          .ok ()

/-- Statement-level predicate: `msg` begins with the literal `pre`. -/
def msg_starts (pre msg : String) : Prop :=
  ∃ rest : String, msg = pre ++ rest

/-- Statement-level predicate: `needle` occurs contiguously inside `hay`. -/
def str_contains (hay needle : String) : Prop :=
  ∃ pre post : List Char, hay.data = pre ++ needle.data ++ post

/-- Whether an import kind is the function kind (the only kind the host offers). -/
def is_function_import : External → Bool
  | .function _ => true
  | _ => false

/-- A generation profile passes when both its export check and its import check
succeed; this is exactly the `is_v010` / `is_v1` computation of `check_wasm`. -/
def generation_passes (m : Module) (required_exports supported_imports : List String) : Bool :=
  vm_result_is_ok (check_wasm_exports m required_exports) &&
    vm_result_is_ok (check_wasm_imports m supported_imports)

/-- A well-formed memory section: one memory of one page, no declared maximum. -/
def mem_section_ok : MemorySection := ⟨[⟨⟨1, none⟩⟩]⟩

/-- Concrete module satisfying the v1 generation profile: one good memory, the
v1 required exports, no imports. -/
def module_v1_ok : Module :=
  ⟨some mem_section_ok, some ⟨REQUIRED_EXPORTS_V1.map (fun n => ⟨n⟩)⟩, none⟩

/-- Concrete module exporting only `add_one` (the spec example of a contract
missing every generation entry point). -/
def module_add_one : Module :=
  ⟨some mem_section_ok, some ⟨[⟨"add_one"⟩]⟩, none⟩

/-- Concrete module from the repository feature tests: marker-convention exports
requiring the features water, nutrients and sun. -/
def module_feature_demo : Module :=
  ⟨some mem_section_ok,
   some ⟨[⟨"requires_water"⟩, ⟨"requires_"⟩, ⟨"requires_nutrients"⟩, ⟨"require_milk"⟩,
          ⟨"REQUIRES_air"⟩, ⟨"requires_sun"⟩]⟩,
   none⟩

/-- Concrete module importing `env.db_read` with memory kind (the spec example
of a supported name of the wrong kind). -/
def module_import_memory_kind : Module :=
  ⟨none, none, some ⟨[⟨"env", "db_read", External.memory⟩]⟩⟩

/-! Helper lemmas shared by the claim theorems. -/

theorem string_data_inj {a b : String} (h : a.data = b.data) : a = b := by
  cases a
  cases b
  exact congrArg String.mk h

theorem strLtB_iff {a b : String} : strLtB a b = true ↔ a.data < b.data := by
  simp [strLtB]

theorem string_eq_of_not_ltB {a b : String} (h1 : strLtB a b = false)
    (h2 : strLtB b a = false) : a = b := by
  apply string_data_inj
  have k1 : ¬ a.data < b.data := by simpa [strLtB] using h1
  have k2 : ¬ b.data < a.data := by simpa [strLtB] using h2
  exact le_antisymm (not_lt.mp k2) (not_lt.mp k1)

theorem mem_btreeInsert {x a : String} : ∀ {l : List String},
    x ∈ btreeInsert a l ↔ x = a ∨ x ∈ l := by
  intro l
  induction l with
  | nil => simp [btreeInsert]
  | cons b bs ih =>
    simp only [btreeInsert]
    by_cases h1 : strLtB a b = true
    · simp [h1, List.mem_cons]
    · rw [if_neg h1]
      by_cases h2 : strLtB b a = true
      · rw [if_pos h2]
        simp only [List.mem_cons, ih]
        tauto
      · rw [if_neg h2]
        have hab : a = b :=
          string_eq_of_not_ltB (Bool.eq_false_iff.mpr h1) (Bool.eq_false_iff.mpr h2)
        subst hab
        simp only [List.mem_cons]
        tauto

theorem pairwise_btreeInsert {a : String} : ∀ {l : List String},
    l.Pairwise (fun u v => strLtB u v = true) →
      (btreeInsert a l).Pairwise (fun u v => strLtB u v = true) := by
  intro l
  induction l with
  | nil =>
    intro _
    simp [btreeInsert]
  | cons b bs ih =>
    intro hp
    rcases List.pairwise_cons.mp hp with ⟨hb, hbs⟩
    simp only [btreeInsert]
    by_cases h1 : strLtB a b = true
    · rw [if_pos h1]
      refine List.pairwise_cons.mpr ⟨?_, hp⟩
      intro x hx
      rcases List.mem_cons.mp hx with rfl | hx2
      · exact h1
      · have hbx := hb x hx2
        exact strLtB_iff.mpr (lt_trans (strLtB_iff.mp h1) (strLtB_iff.mp hbx))
    · rw [if_neg h1]
      by_cases h2 : strLtB b a = true
      · rw [if_pos h2]
        refine List.pairwise_cons.mpr ⟨?_, ih hbs⟩
        intro x hx
        rcases mem_btreeInsert.mp hx with rfl | hx2
        · exact h2
        · exact hb x hx2
      · rw [if_neg h2]
        exact hp

theorem mem_foldl_btreeInsert {x : String} : ∀ (l acc : List String),
    x ∈ l.foldl (fun acc a => btreeInsert a acc) acc ↔ x ∈ acc ∨ x ∈ l := by
  intro l
  induction l with
  | nil => simp
  | cons a as ih =>
    intro acc
    simp only [List.foldl_cons, ih, mem_btreeInsert, List.mem_cons]
    tauto

theorem mem_btreeSetOfList {x : String} {l : List String} :
    x ∈ btreeSetOfList l ↔ x ∈ l := by
  simp [btreeSetOfList, mem_foldl_btreeInsert]

theorem pairwise_foldl_btreeInsert : ∀ (l acc : List String),
    acc.Pairwise (fun u v => strLtB u v = true) →
      (l.foldl (fun acc a => btreeInsert a acc) acc).Pairwise
        (fun u v => strLtB u v = true) := by
  intro l
  induction l with
  | nil =>
    intro acc h
    simpa using h
  | cons a as ih =>
    intro acc h
    exact ih _ (pairwise_btreeInsert h)

theorem pairwise_btreeSetOfList {l : List String} :
    (btreeSetOfList l).Pairwise (fun u v => strLtB u v = true) :=
  pairwise_foldl_btreeInsert l [] (by simp)

theorem contains_iff_mem {l : List String} {a : String} :
    l.contains a = true ↔ a ∈ l :=
  List.elem_iff

theorem any_beq_iff {l : List String} {a : String} :
    (l.any fun x => x == a) = true ↔ a ∈ l := by
  simp [List.any_eq_true, beq_iff_eq]

/-! Claim theorems. -/

/-- Claim C3: `check_wasm_memories` applies its four checks in order with
short-circuiting — missing section, then entry count, then initial-size bound
(512 pages inclusive passes), then declared maximum — each branch producing the
claimed message, and each message starting with the prefix the claim names. -/
theorem check_wasm_memories_order (m : Module) :
    (m.memory_section = none →
      check_wasm_memories m = .error (.staticValidationErr missing_memory_section_msg))
    ∧ (∀ sec : MemorySection, m.memory_section = some sec → sec.entries.length ≠ 1 →
      check_wasm_memories m = .error (.staticValidationErr memory_count_msg))
    ∧ (∀ (sec : MemorySection) (mem : MemoryType), m.memory_section = some sec →
      sec.entries = [mem] → MEMORY_LIMIT < mem.limits.initial →
      check_wasm_memories m = .error (.staticValidationErr memory_min_msg))
    ∧ (∀ (sec : MemorySection) (mem : MemoryType), m.memory_section = some sec →
      sec.entries = [mem] → mem.limits.initial ≤ MEMORY_LIMIT →
      mem.limits.maximum ≠ none →
      check_wasm_memories m = .error (.staticValidationErr memory_max_msg))
    ∧ (∀ (sec : MemorySection) (mem : MemoryType), m.memory_section = some sec →
      sec.entries = [mem] → mem.limits.initial ≤ MEMORY_LIMIT →
      mem.limits.maximum = none →
      check_wasm_memories m = .ok ())
    ∧ msg_starts "Wasm contract doesn\x27t have a memory section" missing_memory_section_msg
    ∧ msg_starts "Wasm contract must contain exactly one memory" memory_count_msg
    ∧ msg_starts "Wasm contract memory\x27s minimum must not exceed 512 pages." memory_min_msg
    ∧ msg_starts "Wasm contract memory\x27s maximum must be unset." memory_max_msg := by
  refine ⟨?_, ?_, ?_, ?_, ?_, ⟨"", by decide⟩, ⟨"", by decide⟩, ⟨"", by decide⟩,
    ⟨" The host will set it for you.", by decide⟩⟩
  · intro h
    simp [check_wasm_memories, h]
  · intro sec h hne
    obtain ⟨entries⟩ := sec
    simp only [check_wasm_memories, h]
    rcases entries with _ | ⟨e1, _ | ⟨e2, tl⟩⟩
    · rfl
    · simp at hne
    · rfl
  · intro sec mem h he hlt
    simp only [check_wasm_memories, h, he]
    rw [if_pos hlt]
  · intro sec mem h he hle hmax
    simp only [check_wasm_memories, h, he]
    rw [if_neg (not_lt.mpr hle), if_pos hmax]
  · intro sec mem h he hle hmax
    simp only [check_wasm_memories, h, he]
    rw [if_neg (not_lt.mpr hle), if_neg (by simp [hmax])]

/-- Witness for C3: each branch of the memory check exercised at a concrete
module, including acceptance at exactly 512 initial pages. -/
theorem check_wasm_memories_order_witness :
    check_wasm_memories ⟨none, none, none⟩ =
      .error (.staticValidationErr missing_memory_section_msg)
    ∧ check_wasm_memories ⟨some ⟨[]⟩, none, none⟩ =
      .error (.staticValidationErr memory_count_msg)
    ∧ check_wasm_memories ⟨some ⟨[⟨⟨513, none⟩⟩]⟩, none, none⟩ =
      .error (.staticValidationErr memory_min_msg)
    ∧ check_wasm_memories ⟨some ⟨[⟨⟨1, some 5⟩⟩]⟩, none, none⟩ =
      .error (.staticValidationErr memory_max_msg)
    ∧ check_wasm_memories ⟨some ⟨[⟨⟨512, none⟩⟩]⟩, none, none⟩ = .ok () := by
  refine ⟨(check_wasm_memories_order _).1 rfl,
    (check_wasm_memories_order _).2.1 ⟨[]⟩ rfl (by decide),
    (check_wasm_memories_order _).2.2.1 _ ⟨⟨513, none⟩⟩ rfl rfl (by decide),
    (check_wasm_memories_order _).2.2.2.1 _ ⟨⟨1, some 5⟩⟩ rfl rfl (by decide) (by decide),
    (check_wasm_memories_order _).2.2.2.2.1 _ ⟨⟨512, none⟩⟩ rfl rfl (by decide) rfl⟩

/-- Claim C7: a present-but-empty memory section is rejected with the
count-check message, which differs from the missing-section message. -/
theorem check_wasm_memories_empty_section (m : Module) (sec : MemorySection)
    (h : m.memory_section = some sec) (he : sec.entries = []) :
    check_wasm_memories m = .error (.staticValidationErr memory_count_msg)
    ∧ memory_count_msg ≠ missing_memory_section_msg := by
  constructor
  · simp [check_wasm_memories, h, he]
  · decide

/-- Witness for C7 at the concrete module whose memory section is present and
empty. -/
theorem check_wasm_memories_empty_section_witness :
    check_wasm_memories ⟨some ⟨[]⟩, none, none⟩ =
      .error (.staticValidationErr memory_count_msg)
    ∧ memory_count_msg ≠ missing_memory_section_msg :=
  check_wasm_memories_empty_section ⟨some ⟨[]⟩, none, none⟩ ⟨[]⟩ rfl rfl

theorem check_wasm_exports_loop_ok_iff (avail full : List String) :
    ∀ todo, check_wasm_exports_loop avail full todo = .ok () ↔
      ∀ r ∈ todo, r ∈ avail := by
  intro todo
  induction todo with
  | nil => simp [check_wasm_exports_loop]
  | cons r rest ih =>
    simp only [check_wasm_exports_loop]
    by_cases h : (avail.any fun x => x == r) = true
    · rw [if_pos h, ih]
      have hr : r ∈ avail := any_beq_iff.mp h
      constructor
      · intro hall x hx
        rcases List.mem_cons.mp hx with rfl | hx2
        · exact hr
        · exact hall x hx2
      · intro hall x hx
        exact hall x (List.mem_cons_of_mem _ hx)
    · rw [if_neg h]
      constructor
      · intro hc
        simp at hc
      · intro hall
        exact absurd (any_beq_iff.mpr (hall r (List.mem_cons_self r rest))) h

theorem check_wasm_exports_loop_first_missing (avail full : List String) :
    ∀ (pre : List String) (r : String) (rest : List String),
      (∀ p ∈ pre, p ∈ avail) → r ∉ avail →
      check_wasm_exports_loop avail full (pre ++ r :: rest) =
        .error (.staticValidationErr (missing_export_msg r full)) := by
  intro pre
  induction pre with
  | nil =>
    intro r rest _ hr
    simp only [List.nil_append, check_wasm_exports_loop]
    rw [if_neg (fun hc => hr (any_beq_iff.mp hc))]
  | cons p ps ih =>
    intro r rest hpre hr
    simp only [List.cons_append, check_wasm_exports_loop]
    rw [if_pos (any_beq_iff.mpr (hpre p (List.mem_cons_self p ps)))]
    exact ih r rest (fun q hq => hpre q (List.mem_cons_of_mem _ hq)) hr

theorem check_wasm_exports_loop_congr (a1 a2 full : List String) :
    ∀ todo, (∀ r ∈ todo, (r ∈ a1 ↔ r ∈ a2)) →
      check_wasm_exports_loop a1 full todo = check_wasm_exports_loop a2 full todo := by
  intro todo
  induction todo with
  | nil =>
    intro _
    rfl
  | cons r rest ih =>
    intro hmem
    have hiff := hmem r (List.mem_cons_self r rest)
    simp only [check_wasm_exports_loop]
    by_cases h : (a1.any fun x => x == r) = true
    · rw [if_pos h, if_pos (any_beq_iff.mpr (hiff.mp (any_beq_iff.mp h)))]
      exact ih (fun q hq => hmem q (List.mem_cons_of_mem _ hq))
    · rw [if_neg h, if_neg (fun hc => h (any_beq_iff.mpr (hiff.mpr (any_beq_iff.mp hc))))]

theorem check_wasm_imports_loop_cons (sup : List String) (e : ImportEntry)
    (rest : List ImportEntry) :
    check_wasm_imports_loop sup (e :: rest) =
      if sup.contains (import_full_name e) then
        if is_function_import e.external then check_wasm_imports_loop sup rest
        else .error (.staticValidationErr (non_function_import_msg (import_full_name e)))
      else
        .error (.staticValidationErr (unsupported_import_msg (import_full_name e) sup)) := by
  obtain ⟨a, b, c⟩ := e
  cases c <;> rfl

theorem check_wasm_imports_loop_ok_iff (sup : List String) :
    ∀ todo, check_wasm_imports_loop sup todo = .ok () ↔
      ∀ e ∈ todo, import_full_name e ∈ sup ∧ is_function_import e.external = true := by
  intro todo
  induction todo with
  | nil => simp [check_wasm_imports_loop]
  | cons e rest ih =>
    rw [check_wasm_imports_loop_cons]
    by_cases h1 : sup.contains (import_full_name e) = true
    · rw [if_pos h1]
      by_cases h2 : is_function_import e.external = true
      · rw [if_pos h2, ih]
        constructor
        · intro hall x hx
          rcases List.mem_cons.mp hx with rfl | hx2
          · exact ⟨contains_iff_mem.mp h1, h2⟩
          · exact hall x hx2
        · intro hall x hx
          exact hall x (List.mem_cons_of_mem _ hx)
      · rw [if_neg h2]
        constructor
        · intro hc
          simp at hc
        · intro hall
          exact absurd (hall e (List.mem_cons_self e rest)).2 h2
    · rw [if_neg h1]
      constructor
      · intro hc
        simp at hc
      · intro hall
        exact absurd (contains_iff_mem.mpr (hall e (List.mem_cons_self e rest)).1) h1

theorem check_wasm_imports_loop_first_fail (sup : List String) :
    ∀ (pre : List ImportEntry) (e : ImportEntry) (rest : List ImportEntry),
      (∀ p ∈ pre, import_full_name p ∈ sup ∧ is_function_import p.external = true) →
      ((import_full_name e ∉ sup →
        check_wasm_imports_loop sup (pre ++ e :: rest) =
          .error (.staticValidationErr (unsupported_import_msg (import_full_name e) sup)))
      ∧ (import_full_name e ∈ sup → is_function_import e.external = false →
        check_wasm_imports_loop sup (pre ++ e :: rest) =
          .error (.staticValidationErr (non_function_import_msg (import_full_name e))))) := by
  intro pre
  induction pre with
  | nil =>
    intro e rest _
    constructor
    · intro hne
      rw [List.nil_append, check_wasm_imports_loop_cons,
        if_neg (fun hc => hne (contains_iff_mem.mp hc))]
    · intro hin hnf
      rw [List.nil_append, check_wasm_imports_loop_cons,
        if_pos (contains_iff_mem.mpr hin), if_neg (by simp [hnf])]
  | cons p ps ih =>
    intro e rest hpre
    have hp := hpre p (List.mem_cons_self p ps)
    have hrec := ih e rest (fun q hq => hpre q (List.mem_cons_of_mem _ hq))
    constructor
    · intro hne
      rw [List.cons_append, check_wasm_imports_loop_cons,
        if_pos (contains_iff_mem.mpr hp.1), if_pos hp.2]
      exact hrec.1 hne
    · intro hin hnf
      rw [List.cons_append, check_wasm_imports_loop_cons,
        if_pos (contains_iff_mem.mpr hp.1), if_pos hp.2]
      exact hrec.2 hin hnf

/-- Claim C5: `check_wasm_exports` succeeds iff every required name occurs,
case-sensitively, among the module export names; on failure it reports the
first missing required name in required-list order, naming it and enumerating
the full required list. -/
theorem check_wasm_exports_characterization (m : Module) (required_exports : List String) :
    (check_wasm_exports m required_exports = .ok () ↔
      ∀ r ∈ required_exports, r ∈ available_wasm_exports m)
    ∧ (∀ (pre : List String) (r : String) (rest : List String),
        required_exports = pre ++ r :: rest →
        (∀ p ∈ pre, p ∈ available_wasm_exports m) →
        r ∉ available_wasm_exports m →
        check_wasm_exports m required_exports =
          .error (.staticValidationErr (missing_export_msg r required_exports))) := by
  constructor
  · exact check_wasm_exports_loop_ok_iff _ _ _
  · intro pre r rest heq hpre hr
    unfold check_wasm_exports
    rw [heq]
    exact check_wasm_exports_loop_first_missing _ _ pre r rest hpre hr

set_option maxRecDepth 8192 in
/-- Witness for C5: the spec example — a module exporting only `add_one` fails
the v0.10 list on its first entry, and the message starts by naming
`cosmwasm_vm_version_3`. -/
theorem check_wasm_exports_characterization_witness :
    check_wasm_exports module_add_one REQUIRED_EXPORTS_V010 =
      .error (.staticValidationErr
        (missing_export_msg "cosmwasm_vm_version_3" REQUIRED_EXPORTS_V010))
    ∧ msg_starts "Wasm contract doesn\x27t have required export: \"cosmwasm_vm_version_3\""
        (missing_export_msg "cosmwasm_vm_version_3" REQUIRED_EXPORTS_V010) := by
  constructor
  · exact (check_wasm_exports_characterization module_add_one REQUIRED_EXPORTS_V010).2
      [] "cosmwasm_vm_version_3" ["query", "init", "handle", "allocate", "deallocate"]
      rfl (by simp) (by decide)
  · exact ⟨". Exports required by VM: [\"cosmwasm_vm_version_3\", \"query\", \"init\", \"handle\", \"allocate\", \"deallocate\"].",
      by decide⟩

/-- Claim C10: the outcome of `check_wasm_exports` depends only on which
required names occur among the module export names; a missing export section
behaves exactly like an empty one, passing only an empty required list and
otherwise failing on the first required name. -/
theorem check_wasm_exports_extensional (required_exports : List String) :
    (∀ m1 m2 : Module,
      (∀ r ∈ required_exports,
        (r ∈ available_wasm_exports m1 ↔ r ∈ available_wasm_exports m2)) →
      check_wasm_exports m1 required_exports = check_wasm_exports m2 required_exports)
    ∧ (∀ (msec : Option MemorySection) (isec : Option ImportSection),
      check_wasm_exports ⟨msec, none, isec⟩ required_exports =
        check_wasm_exports ⟨msec, some ⟨[]⟩, isec⟩ required_exports)
    ∧ (∀ m : Module, m.export_section = none →
      (check_wasm_exports m required_exports = .ok () ↔ required_exports = []))
    ∧ (∀ (m : Module) (r : String) (rest : List String), m.export_section = none →
      required_exports = r :: rest →
      check_wasm_exports m required_exports =
        .error (.staticValidationErr (missing_export_msg r required_exports))) := by
  refine ⟨?_, ?_, ?_, ?_⟩
  · intro m1 m2 h
    unfold check_wasm_exports
    exact check_wasm_exports_loop_congr _ _ _ _ h
  · intro msec isec
    rfl
  · intro m h
    have ha : available_wasm_exports m = [] := by
      simp [available_wasm_exports, h]
    unfold check_wasm_exports
    rw [ha, check_wasm_exports_loop_ok_iff]
    simp [List.eq_nil_iff_forall_not_mem]
  · intro m r rest h heq
    have ha : available_wasm_exports m = [] := by
      simp [available_wasm_exports, h]
    unfold check_wasm_exports
    rw [ha, heq]
    exact check_wasm_exports_loop_first_missing [] (r :: rest) [] r rest (by simp) (by simp)

/-- Witness for C10: reordering and adding non-required exports preserves the
outcome; a module with no export section fails a nonempty required list on its
first name and passes only the empty list. -/
theorem check_wasm_exports_extensional_witness :
    check_wasm_exports
      ⟨none, some ⟨[⟨"add_one"⟩, ⟨"instantiate"⟩, ⟨"allocate"⟩, ⟨"deallocate"⟩,
        ⟨"interface_version_8"⟩]⟩, none⟩ REQUIRED_EXPORTS_V1 =
      check_wasm_exports module_v1_ok REQUIRED_EXPORTS_V1
    ∧ (check_wasm_exports ⟨none, none, none⟩ REQUIRED_EXPORTS_V1 = .ok () ↔
        REQUIRED_EXPORTS_V1 = [])
    ∧ check_wasm_exports ⟨none, none, none⟩ REQUIRED_EXPORTS_V1 =
      .error (.staticValidationErr
        (missing_export_msg "interface_version_8" REQUIRED_EXPORTS_V1)) := by
  refine ⟨(check_wasm_exports_extensional REQUIRED_EXPORTS_V1).1 _ _ (by decide),
    (check_wasm_exports_extensional REQUIRED_EXPORTS_V1).2.2.1 _ rfl,
    (check_wasm_exports_extensional REQUIRED_EXPORTS_V1).2.2.2 _ "interface_version_8"
      ["allocate", "deallocate", "instantiate"] rfl rfl⟩

/-- Claim C2: `check_wasm_imports` succeeds iff every declared import has a
supported fully-qualified name and function kind; the scan runs in declaration
order, short-circuits at the first failing import, checks the name before the
kind, and produces the claimed message for each failure mode. -/
theorem check_wasm_imports_characterization (m : Module) (supported_imports : List String) :
    (check_wasm_imports m supported_imports = .ok () ↔
      ∀ e ∈ required_wasm_imports m,
        import_full_name e ∈ supported_imports ∧ is_function_import e.external = true)
    ∧ (∀ (pre : List ImportEntry) (e : ImportEntry) (rest : List ImportEntry),
        required_wasm_imports m = pre ++ e :: rest →
        (∀ p ∈ pre, import_full_name p ∈ supported_imports ∧
          is_function_import p.external = true) →
        ((import_full_name e ∉ supported_imports →
          check_wasm_imports m supported_imports =
            .error (.staticValidationErr
              (unsupported_import_msg (import_full_name e) supported_imports)))
        ∧ (import_full_name e ∈ supported_imports →
          is_function_import e.external = false →
          check_wasm_imports m supported_imports =
            .error (.staticValidationErr (non_function_import_msg (import_full_name e)))))) := by
  constructor
  · exact check_wasm_imports_loop_ok_iff _ _
  · intro pre e rest heq hpre
    unfold check_wasm_imports
    rw [heq]
    exact check_wasm_imports_loop_first_fail _ pre e rest hpre

/-- Witness for C2: the spec example — a memory-kind import of the supported
name `env.db_read` is rejected as a non-function import, and an unknown name
`env.foo` is rejected as unsupported; the messages carry the claimed prefixes. -/
theorem check_wasm_imports_characterization_witness :
    check_wasm_imports module_import_memory_kind (SUPPORTED_IMPORTS_V010 ⟨false, false⟩) =
      .error (.staticValidationErr (non_function_import_msg "env.db_read"))
    ∧ check_wasm_imports ⟨none, none, some ⟨[⟨"env", "foo", External.function 0⟩]⟩⟩
        (SUPPORTED_IMPORTS_V010 ⟨false, false⟩) =
      .error (.staticValidationErr
        (unsupported_import_msg "env.foo" (SUPPORTED_IMPORTS_V010 ⟨false, false⟩)))
    ∧ msg_starts "Wasm contract requires non-function import: \"env.db_read\""
        (non_function_import_msg "env.db_read") := by
  refine ⟨?_, ?_, ⟨". Right now, all supported imports are functions.", by decide⟩⟩
  · exact ((check_wasm_imports_characterization module_import_memory_kind
      (SUPPORTED_IMPORTS_V010 ⟨false, false⟩)).2 [] ⟨"env", "db_read", External.memory⟩ []
      rfl (by simp)).2 (by decide) rfl
  · exact ((check_wasm_imports_characterization
      ⟨none, none, some ⟨[⟨"env", "foo", External.function 0⟩]⟩⟩
      (SUPPORTED_IMPORTS_V010 ⟨false, false⟩)).2 [] ⟨"env", "foo", External.function 0⟩ []
      rfl (by simp)).1 (by decide)

/-- Claim C9: a module with no import section vacuously passes the import
check for every supported list, so such a module is accepted by `check_wasm`
whenever the memory, feature and some generation export checks pass. -/
theorem check_wasm_imports_vacuous (m : Module) (supported_imports : List String)
    (cfg : BuildConfig) (d : List Nat → Except String Module)
    (wasm_code : List Nat) (feats : List String) :
    (m.import_section = none → check_wasm_imports m supported_imports = .ok ())
    ∧ (m.import_section = none → d wasm_code = .ok m →
      check_wasm_memories m = .ok () → check_wasm_features m feats = .ok () →
      (check_wasm_exports m REQUIRED_EXPORTS_V010 = .ok () ∨
        check_wasm_exports m REQUIRED_EXPORTS_V1 = .ok ()) →
      check_wasm cfg d wasm_code feats = .ok ()) := by
  have himp : m.import_section = none → ∀ sup, check_wasm_imports m sup = .ok () := by
    intro h sup
    unfold check_wasm_imports required_wasm_imports
    rw [h]
    rfl
  constructor
  · intro h
    exact himp h supported_imports
  · intro h hd hm hf hgen
    rcases hgen with hg | hg
    · simp [check_wasm, hd, hm, hf, hg, himp h, vm_result_is_ok]
    · simp [check_wasm, hd, hm, hf, hg, himp h, vm_result_is_ok]

/-- Witness for C9: the import-free v1 module passes the import check against
the v0.10 list and is accepted end to end by `check_wasm`. -/
theorem check_wasm_imports_vacuous_witness :
    check_wasm_imports module_v1_ok (SUPPORTED_IMPORTS_V010 ⟨true, true⟩) = .ok ()
    ∧ check_wasm ⟨true, true⟩ (fun _ => .ok module_v1_ok) [0] ["staking"] = .ok () := by
  refine ⟨(check_wasm_imports_vacuous module_v1_ok (SUPPORTED_IMPORTS_V010 ⟨true, true⟩)
      ⟨true, true⟩ (fun _ => .ok module_v1_ok) [0] ["staking"]).1 rfl,
    (check_wasm_imports_vacuous module_v1_ok (SUPPORTED_IMPORTS_V010 ⟨true, true⟩)
      ⟨true, true⟩ (fun _ => .ok module_v1_ok) [0] ["staking"]).2 rfl rfl rfl rfl
      (Or.inr rfl)⟩

/-- Claim C8: `check_wasm` is a pure function of its arguments — two calls on
identical inputs (same bytes, same enabled-feature set) return identical
outcomes, rejection messages included; the shallow embedding carries no other
state a result could depend on. -/
theorem check_wasm_deterministic (cfg : BuildConfig) (d : List Nat → Except String Module)
    (wasm1 wasm2 : List Nat) (feats1 feats2 : List String)
    (hw : wasm1 = wasm2) (hf : feats1 = feats2) :
    check_wasm cfg d wasm1 feats1 = check_wasm cfg d wasm2 feats2 := by
  rw [hw, hf]

/-- Witness for C8 at concrete inputs. -/
theorem check_wasm_deterministic_witness :
    check_wasm ⟨false, false⟩ (fun _ => .ok module_v1_ok) [0, 97] ["staking"] =
      check_wasm ⟨false, false⟩ (fun _ => .ok module_v1_ok) [0, 97] ["staking"] :=
  check_wasm_deterministic ⟨false, false⟩ (fun _ => .ok module_v1_ok)
    [0, 97] [0, 97] ["staking"] ["staking"] rfl rfl

theorem contains_eq_false_iff {l : List String} {a : String} :
    l.contains a = false ↔ a ∉ l := by
  constructor
  · intro h hm
    rw [contains_iff_mem.mpr hm] at h
    cases h
  · intro h
    cases hc : l.contains a
    · rfl
    · exact absurd (contains_iff_mem.mp hc) h

/-- Claim C4: `check_wasm_features` succeeds iff the module-required features
are a subset of the enabled ones; on failure the listed set is exactly the set
difference required minus enabled, duplicate-free and strictly sorted. -/
theorem check_wasm_features_characterization (m : Module) (enabled : List String) :
    (check_wasm_features m enabled = .ok () ↔
      ∀ f ∈ required_features_from_module m, f ∈ enabled)
    ∧ (¬ (∀ f ∈ required_features_from_module m, f ∈ enabled) →
      check_wasm_features m enabled = .error (.staticValidationErr
        (unsupported_features_msg (btreeSetOfList
          ((required_features_from_module m).filter
            (fun f => !(enabled.contains f)))))))
    ∧ (∀ f, f ∈ btreeSetOfList ((required_features_from_module m).filter
          (fun f => !(enabled.contains f))) ↔
        (f ∈ required_features_from_module m ∧ f ∉ enabled))
    ∧ (btreeSetOfList ((required_features_from_module m).filter
        (fun f => !(enabled.contains f)))).Pairwise
          (fun a b => strLtB a b = true) := by
  refine ⟨?_, ?_, ?_, pairwise_btreeSetOfList⟩
  · unfold check_wasm_features
    by_cases h : ((required_features_from_module m).all fun f => enabled.contains f) = true
    · rw [if_pos h]
      rw [List.all_eq_true] at h
      constructor
      · intro _ f hf
        exact contains_iff_mem.mp (h f hf)
      · intro _
        rfl
    · rw [if_neg h]
      constructor
      · intro hc
        simp at hc
      · intro hall
        exfalso
        apply h
        rw [List.all_eq_true]
        intro f hf
        exact contains_iff_mem.mpr (hall f hf)
  · intro hn
    unfold check_wasm_features
    have hcond : ¬ (((required_features_from_module m).all
        fun f => enabled.contains f) = true) := by
      rw [List.all_eq_true]
      intro hall
      exact hn (fun f hf => contains_iff_mem.mp (hall f hf))
    rw [if_neg hcond]
  · intro f
    rw [mem_btreeSetOfList, List.mem_filter]
    constructor
    · rintro ⟨h1, h2⟩
      exact ⟨h1, contains_eq_false_iff.mp (by simpa using h2)⟩
    · rintro ⟨h1, h2⟩
      exact ⟨h1, by simpa using h2⟩

set_option maxRecDepth 8192 in
/-- Witness for C4: the spec example — the feature-demo module requires water,
nutrients and sun; with nutrients and freedom enabled the message lists exactly
the sorted difference, and enabling all three required features succeeds. -/
theorem check_wasm_features_characterization_witness :
    check_wasm_features module_feature_demo ["nutrients", "freedom"] =
      .error (.staticValidationErr
        "Wasm contract requires unsupported features: \x7b\"sun\", \"water\"\x7d")
    ∧ check_wasm_features module_feature_demo
        ["water", "nutrients", "sun", "freedom"] = .ok () := by
  constructor
  · exact (check_wasm_features_characterization module_feature_demo
      ["nutrients", "freedom"]).2.1 (by decide)
  · exact (check_wasm_features_characterization module_feature_demo
      ["water", "nutrients", "sun", "freedom"]).1.mpr (by decide)

theorem check_wasm_ok_case (cfg : BuildConfig) (d : List Nat → Except String Module)
    (wasm_code : List Nat) (feats : List String) (m : Module)
    (hd : d wasm_code = .ok m) (hm : check_wasm_memories m = .ok ())
    (hf : check_wasm_features m feats = .ok ()) :
    check_wasm cfg d wasm_code feats =
      if !(generation_passes m REQUIRED_EXPORTS_V010 (SUPPORTED_IMPORTS_V010 cfg)) &&
          !(generation_passes m REQUIRED_EXPORTS_V1 (SUPPORTED_IMPORTS_V1 cfg)) then
        .error (.staticValidationErr (no_compatible_generation_msg
          [check_wasm_exports m REQUIRED_EXPORTS_V010,
           check_wasm_imports m (SUPPORTED_IMPORTS_V010 cfg),
           check_wasm_exports m REQUIRED_EXPORTS_V1,
           check_wasm_imports m (SUPPORTED_IMPORTS_V1 cfg)]))
      else .ok () := by
  simp only [check_wasm, hd, hm, hf, generation_passes]

/-- Claim C1: `check_wasm` accepts exactly the byte sequences that deserialize
to a module passing the memory check, the feature check, and at least one of
the two generation profiles (its export check and its import check both
succeeding); on rejection the deserialization error comes first, then the
memory error, then the feature error, then the aggregated no-compatible
generation error. -/
theorem check_wasm_characterization (cfg : BuildConfig)
    (d : List Nat → Except String Module) (wasm_code : List Nat)
    (feats : List String) :
    (check_wasm cfg d wasm_code feats = .ok () ↔
      ∃ m : Module, d wasm_code = .ok m
        ∧ check_wasm_memories m = .ok ()
        ∧ check_wasm_features m feats = .ok ()
        ∧ (generation_passes m REQUIRED_EXPORTS_V010 (SUPPORTED_IMPORTS_V010 cfg) = true
          ∨ generation_passes m REQUIRED_EXPORTS_V1 (SUPPORTED_IMPORTS_V1 cfg) = true))
    ∧ (∀ err : String, d wasm_code = .error err →
      check_wasm cfg d wasm_code feats =
        .error (.staticValidationErr (deserialization_error_msg err)))
    ∧ (∀ (m : Module) (e : VmError), d wasm_code = .ok m →
      check_wasm_memories m = .error e →
      check_wasm cfg d wasm_code feats = .error e)
    ∧ (∀ (m : Module) (e : VmError), d wasm_code = .ok m →
      check_wasm_memories m = .ok () → check_wasm_features m feats = .error e →
      check_wasm cfg d wasm_code feats = .error e)
    ∧ (∀ m : Module, d wasm_code = .ok m →
      check_wasm_memories m = .ok () → check_wasm_features m feats = .ok () →
      generation_passes m REQUIRED_EXPORTS_V010 (SUPPORTED_IMPORTS_V010 cfg) = false →
      generation_passes m REQUIRED_EXPORTS_V1 (SUPPORTED_IMPORTS_V1 cfg) = false →
      check_wasm cfg d wasm_code feats =
        .error (.staticValidationErr (no_compatible_generation_msg
          [check_wasm_exports m REQUIRED_EXPORTS_V010,
           check_wasm_imports m (SUPPORTED_IMPORTS_V010 cfg),
           check_wasm_exports m REQUIRED_EXPORTS_V1,
           check_wasm_imports m (SUPPORTED_IMPORTS_V1 cfg)]))) := by
  refine ⟨⟨?_, ?_⟩, ?_, ?_, ?_, ?_⟩
  · intro h
    cases hd : d wasm_code with
    | error err =>
      rw [show check_wasm cfg d wasm_code feats =
        .error (.staticValidationErr (deserialization_error_msg err)) by
          simp [check_wasm, hd]] at h
      cases h
    | ok m =>
      cases hm : check_wasm_memories m with
      | error e =>
        rw [show check_wasm cfg d wasm_code feats = .error e by
          simp [check_wasm, hd, hm]] at h
        cases h
      | ok u =>
        cases u
        cases hf : check_wasm_features m feats with
        | error e =>
          rw [show check_wasm cfg d wasm_code feats = .error e by
            simp [check_wasm, hd, hm, hf]] at h
          cases h
        | ok u2 =>
          cases u2
          refine ⟨m, rfl, hm, hf, ?_⟩
          rw [check_wasm_ok_case cfg d wasm_code feats m hd hm hf] at h
          by_contra hng
          push_neg at hng
          have h1 : generation_passes m REQUIRED_EXPORTS_V010
              (SUPPORTED_IMPORTS_V010 cfg) = false :=
            Bool.eq_false_iff.mpr hng.1
          have h2 : generation_passes m REQUIRED_EXPORTS_V1
              (SUPPORTED_IMPORTS_V1 cfg) = false :=
            Bool.eq_false_iff.mpr hng.2
          rw [h1, h2] at h
          simp at h
  · rintro ⟨m, hd, hm, hf, hg⟩
    rw [check_wasm_ok_case cfg d wasm_code feats m hd hm hf]
    rcases hg with hg | hg
    · rw [hg]
      rfl
    · rw [hg]
      simp
  · intro err hd
    simp [check_wasm, hd]
  · intro m e hd hm
    simp [check_wasm, hd, hm]
  · intro m e hd hm hf
    simp [check_wasm, hd, hm, hf]
  · intro m hd hm hf h1 h2
    rw [check_wasm_ok_case cfg d wasm_code feats m hd hm hf, h1, h2]
    rfl

/-- Witness for C1: the import-free v1-profile module is accepted; a failing
deserializer yields the deserialization message; a module with no memory
section is rejected with the memory error before any generation trial. -/
theorem check_wasm_characterization_witness :
    check_wasm ⟨false, false⟩ (fun _ => .ok module_v1_ok) [] [] = .ok ()
    ∧ check_wasm ⟨false, false⟩ (fun _ => .error "magic header not detected") [] [] =
      .error (.staticValidationErr
        (deserialization_error_msg "magic header not detected"))
    ∧ check_wasm ⟨false, false⟩ (fun _ => .ok ⟨none, none, none⟩) [] [] =
      .error (.staticValidationErr missing_memory_section_msg) := by
  refine ⟨?_, ?_, ?_⟩
  · exact (check_wasm_characterization ⟨false, false⟩
      (fun _ => .ok module_v1_ok) [] []).1.mpr ⟨module_v1_ok, rfl, rfl, rfl, Or.inr rfl⟩
  · exact (check_wasm_characterization ⟨false, false⟩
      (fun _ => .error "magic header not detected") [] []).2.1
      "magic header not detected" rfl
  · exact (check_wasm_characterization ⟨false, false⟩
      (fun _ => .ok ⟨none, none, none⟩) [] []).2.2.1 ⟨none, none, none⟩
      (.staticValidationErr missing_memory_section_msg) rfl rfl

theorem str_contains_refl (s : String) : str_contains s s :=
  ⟨[], [], by simp⟩

theorem str_contains_append_left (a : String) {b needle : String}
    (h : str_contains b needle) : str_contains (a ++ b) needle := by
  obtain ⟨pre, post, hp⟩ := h
  exact ⟨a.data ++ pre, post, by simp [String.data_append, hp]⟩

theorem str_contains_append_right {a needle : String} (b : String)
    (h : str_contains a needle) : str_contains (a ++ b) needle := by
  obtain ⟨pre, post, hp⟩ := h
  refine ⟨pre, post ++ b.data, ?_⟩
  simp [String.data_append, hp]

theorem joinSep_contains (sep : String) :
    ∀ (l : List String) (s : String), s ∈ l → str_contains (joinSep sep l) s := by
  intro l
  induction l with
  | nil =>
    intro s hs
    cases hs
  | cons x xs ih =>
    intro s hs
    rcases List.mem_cons.mp hs with rfl | hs2
    · cases xs with
      | nil => exact str_contains_refl s
      | cons y ys =>
        exact str_contains_append_right _ (str_contains_append_right _ (str_contains_refl s))
    · cases xs with
      | nil =>
        cases hs2
      | cons y ys =>
        exact str_contains_append_left _ (ih s hs2)

theorem no_compatible_generation_msg_contains (errors : List VmResult) (r : VmResult)
    (hr : r ∈ errors) :
    str_contains (no_compatible_generation_msg errors) (render_vm_result r) := by
  unfold no_compatible_generation_msg render_vm_results
  apply str_contains_append_left
  apply str_contains_append_right
  apply str_contains_append_left
  exact joinSep_contains _ _ _ (List.mem_map_of_mem _ hr)

/-- Claim C6: when the module passes memory and feature validation but neither
generation profile fully passes, `check_wasm` rejects with the aggregated
diagnostic, and that diagnostic contains the rendering of every one of the four
per-generation results (in particular every per-generation error). -/
theorem check_wasm_no_compatible_generation (cfg : BuildConfig)
    (d : List Nat → Except String Module) (wasm_code : List Nat) (feats : List String)
    (m : Module) (hd : d wasm_code = .ok m)
    (hm : check_wasm_memories m = .ok ())
    (hf : check_wasm_features m feats = .ok ())
    (h010 : generation_passes m REQUIRED_EXPORTS_V010 (SUPPORTED_IMPORTS_V010 cfg) = false)
    (h1 : generation_passes m REQUIRED_EXPORTS_V1 (SUPPORTED_IMPORTS_V1 cfg) = false) :
    check_wasm cfg d wasm_code feats =
      .error (.staticValidationErr (no_compatible_generation_msg
        [check_wasm_exports m REQUIRED_EXPORTS_V010,
         check_wasm_imports m (SUPPORTED_IMPORTS_V010 cfg),
         check_wasm_exports m REQUIRED_EXPORTS_V1,
         check_wasm_imports m (SUPPORTED_IMPORTS_V1 cfg)]))
    ∧ ∀ r ∈ [check_wasm_exports m REQUIRED_EXPORTS_V010,
        check_wasm_imports m (SUPPORTED_IMPORTS_V010 cfg),
        check_wasm_exports m REQUIRED_EXPORTS_V1,
        check_wasm_imports m (SUPPORTED_IMPORTS_V1 cfg)],
      str_contains (no_compatible_generation_msg
        [check_wasm_exports m REQUIRED_EXPORTS_V010,
         check_wasm_imports m (SUPPORTED_IMPORTS_V010 cfg),
         check_wasm_exports m REQUIRED_EXPORTS_V1,
         check_wasm_imports m (SUPPORTED_IMPORTS_V1 cfg)])
        (render_vm_result r) := by
  constructor
  · rw [check_wasm_ok_case cfg d wasm_code feats m hd hm hf, h010, h1]
    rfl
  · intro r hr
    exact no_compatible_generation_msg_contains _ r hr

/-- Witness for C6: the `add_one`-only module fails both generations and is
rejected with the aggregate of the four per-generation results, which contains
the rendering of the first (the v0.10 export failure). -/
theorem check_wasm_no_compatible_generation_witness :
    check_wasm ⟨false, false⟩ (fun _ => .ok module_add_one) [] ["staking"] =
      .error (.staticValidationErr (no_compatible_generation_msg
        [check_wasm_exports module_add_one REQUIRED_EXPORTS_V010,
         check_wasm_imports module_add_one (SUPPORTED_IMPORTS_V010 ⟨false, false⟩),
         check_wasm_exports module_add_one REQUIRED_EXPORTS_V1,
         check_wasm_imports module_add_one (SUPPORTED_IMPORTS_V1 ⟨false, false⟩)]))
    ∧ str_contains (no_compatible_generation_msg
        [check_wasm_exports module_add_one REQUIRED_EXPORTS_V010,
         check_wasm_imports module_add_one (SUPPORTED_IMPORTS_V010 ⟨false, false⟩),
         check_wasm_exports module_add_one REQUIRED_EXPORTS_V1,
         check_wasm_imports module_add_one (SUPPORTED_IMPORTS_V1 ⟨false, false⟩)])
        (render_vm_result (check_wasm_exports module_add_one REQUIRED_EXPORTS_V010)) := by
  have h := check_wasm_no_compatible_generation ⟨false, false⟩
    (fun _ => .ok module_add_one) [] ["staking"] module_add_one rfl rfl rfl rfl rfl
  exact ⟨h.1, h.2 _ (by simp)⟩

end Compatability
